import Mathlib

/-
  Shallow embedding of the query-construction-and-execution layer of
  src/node-vanilla-template/src/utils/dbUtils.js.

  * A JS value bound into a query is modelled as a String (template-literal
    interpolation stringifies values).
  * A row is a column-to-value association list, in the order the pool
    delivers it.
  * The connection pool is an abstract function from (SQL text, positional
    parameters) to either a query result or an engine error message; a JS
    `throw`/rejected promise is `Except.error`.
  * Each embedded operation returns its JS result together with the list of
    calls it issued to the pool, so that "issues exactly one statement" and
    "raises before touching the pool" are statable.
  * A JS object used as an ordered column-to-value map is a
    `List (String × String)` in iteration order (`Object.entries` order).
-/

/-- A database row: column name to value, as delivered by the pool. -/
abbrev Row := List (String × String)

/-- Result of one pool query: the returned rows and the affected-row count. -/
structure QueryResult where
  rows : List Row
  rowCount : Nat
deriving DecidableEq, Repr

/-- One call issued to the pool: the SQL text and the positional parameters. -/
abbrev PoolCall := String × List String

/-- The connection pool: executes SQL text with positional parameters and
either returns a result or fails with an engine error message. -/
abbrev Pool := String → List String → Except String QueryResult

/-- Model of JS Array.prototype.join with a separator: empty array joins to
the empty string. -/
def joinSep (sep : String) : List String → String
  | [] => ""
  | [x] => x
  | x :: y :: xs => x ++ sep ++ joinSep sep (y :: xs)

/-- The single-quote character as a string (used by addRow's literal
embedding of values). -/
def singleQuote : String := String.mk [Char.ofNat 39]

/-- Embedding of checkDatabaseExists (dbUtils.js lines 63-75): queries
pg_database for the name; returns rowCount > 0 on success and swallows any
query error to false. -/
def checkDatabaseExists (databaseName : String) (pool : Pool) :
    Bool × List PoolCall :=
  let q := "SELECT 1 FROM pg_database WHERE datname = $1"
  let r :=
    match pool q [databaseName] with
    | Except.ok result => decide (result.rowCount > 0)
    | Except.error _ => false
  (r, [(q, [databaseName])])

/-- Embedding of checkTableExists (dbUtils.js lines 85-96): queries
information_schema.tables for the schema/table pair; returns rowCount > 0 on
success and re-throws the raw query error. -/
def checkTableExists (tableName : String) (pool : Pool) (schemaName : String) :
    Except String Bool × List PoolCall :=
  let q := "SELECT 1 FROM information_schema.tables WHERE table_schema = $1 AND table_name = $2"
  let r :=
    match pool q [schemaName, tableName] with
    | Except.ok result => Except.ok (decide (result.rowCount > 0))
    | Except.error e => Except.error e
  (r, [(q, [schemaName, tableName])])

/-- Embedding of createTable (dbUtils.js lines 105-112): issues
CREATE TABLE IF NOT EXISTS and re-throws the raw query error. -/
def createTable (tableName : String) (pool : Pool) (columnsDefinition : String) :
    Except String Unit × List PoolCall :=
  let q := "CREATE TABLE IF NOT EXISTS " ++ tableName ++ " (" ++ columnsDefinition ++ ")"
  let r :=
    match pool q [] with
    | Except.ok _ => Except.ok ()
    | Except.error e => Except.error e
  (r, [(q, [])])

/-- Embedding of addRow (dbUtils.js lines 121-133): columns from the data
map keys, values embedded as single-quoted literals in the SQL text, query
executed with no bound parameters; returns result.rows[0] (undefined, i.e.
none, when no row came back) and re-throws the raw query error. -/
def addRow (tableName : String) (data : List (String × String)) (pool : Pool) :
    Except String (Option Row) × List PoolCall :=
  let columns := joinSep ", " (data.map Prod.fst)
  let values := joinSep ", " (data.map (fun kv => singleQuote ++ kv.2 ++ singleQuote))
  let query := "INSERT INTO " ++ tableName ++ " (" ++ columns ++ ") VALUES (" ++ values ++ ") RETURNING *"
  let r :=
    match pool query [] with
    | Except.ok result => Except.ok result.rows.head?
    | Except.error e => Except.error e
  (r, [(query, [])])

/-- Embedding of getAllFromTable (dbUtils.js lines 143-155): SELECT * and
return result.rows unchanged; re-throws the raw query error. -/
def getAllFromTable (tableName : String) (pool : Pool) :
    Except String (List Row) × List PoolCall :=
  let query := "SELECT * FROM " ++ tableName
  let r :=
    match pool query [] with
    | Except.ok result => Except.ok result.rows
    | Except.error e => Except.error e
  (r, [(query, [])])

/-- The fields option of getEntry: a single string or an array of strings,
mirroring the JS union. -/
inductive FieldsOpt where
  | str (s : String)
  | arr (l : List String)
deriving DecidableEq, Repr

/-- Options object of getEntry; a missing key is none. maxEntries is an
integer (JS number), kept signed because the source only tests truthiness. -/
structure GetEntryOptions where
  fields : Option FieldsOpt
  sort : Option (List (String × String))
  maxEntries : Option Int
deriving DecidableEq, Repr

/-- Result of getEntry: a single row, an array of rows, or null. -/
inductive GetEntryResult where
  | one (r : Row)
  | many (rs : List Row)
  | null
deriving DecidableEq, Repr

/-- Embedding of getEntry (dbUtils.js lines 172-221): builds
SELECT fields FROM table where orderBy LIMIT limit, binds the condition
values positionally, and shapes the result by the maxEntries option; wraps a
query error as Failed to retrieve entry from table. -/
def getEntry (tableName : String) (conditions : List (String × String))
    (pool : Pool) (options : GetEntryOptions) :
    Except String GetEntryResult × List PoolCall :=
  let fields :=
    match options.fields with
    | none => "*"
    | some (FieldsOpt.str s) => if s.length > 0 then s else "*"
    | some (FieldsOpt.arr l) => if l.length > 0 then joinSep ", " l else "*"
  let whereParams := conditions.map Prod.snd
  let whereClauses := conditions.enum.map (fun p => p.2.1 ++ " = $" ++ toString (p.1 + 1))
  let whereClause := if whereClauses.length > 0 then "WHERE " ++ joinSep " AND " whereClauses else ""
  let orderByClause :=
    match options.sort with
    | none => ""
    | some sortMap =>
        let sortItems := joinSep ", " (sortMap.map (fun p => p.1 ++ " " ++ p.2))
        if sortItems.length > 0 then "ORDER BY " ++ sortItems else ""
  let limit : Int :=
    match options.maxEntries with
    | some n => if n ≠ 0 then n else 1
    | none => 1
  let query := "SELECT " ++ fields ++ " FROM " ++ tableName ++ " " ++ whereClause ++ " " ++ orderByClause ++ " LIMIT " ++ toString limit
  let r :=
    match pool query whereParams with
    | Except.ok result =>
        if (match options.maxEntries with
            | some n => decide (n ≠ 0) && decide (n > 1)
            | none => false) then
          Except.ok (if result.rows.length > 0 then GetEntryResult.many result.rows else GetEntryResult.null)
        else
          Except.ok (match result.rows.head? with
            | some row => GetEntryResult.one row
            | none => GetEntryResult.null)
    | Except.error e => Except.error ("Failed to retrieve entry from " ++ tableName ++ ": " ++ e)
  (r, [(query, whereParams)])

/-- Options object of deleteEntry: only the returning flag (false when the
key is missing or falsy). -/
structure DeleteOptions where
  returning : Bool
deriving DecidableEq, Repr

/-- Result of deleteEntry: the deleted row or null when returning is set,
otherwise the affected-row count. -/
inductive DeleteResult where
  | row (r : Row)
  | null
  | count (n : Nat)
deriving DecidableEq, Repr

/-- Embedding of deleteEntry (dbUtils.js lines 253-278): builds the WHERE
clause from the conditions, throws the safety validation error before any
pool call when no condition is given, otherwise issues one DELETE binding
the condition values positionally; wraps a query error as Failed to delete
entry from table. -/
def deleteEntry (tableName : String) (conditions : List (String × String))
    (pool : Pool) (options : DeleteOptions) :
    Except String DeleteResult × List PoolCall :=
  let whereParams := conditions.map Prod.snd
  let whereClauses := conditions.enum.map (fun p => p.2.1 ++ " = $" ++ toString (p.1 + 1))
  if whereClauses.length = 0 then
    (Except.error "At least one condition is required for safety", [])
  else
    let returningClause := if options.returning then "RETURNING *" else ""
    let query := "DELETE FROM " ++ tableName ++ " WHERE " ++ joinSep " AND " whereClauses ++ " " ++ returningClause
    let r :=
      match pool query whereParams with
      | Except.ok result =>
          if options.returning then
            Except.ok (match result.rows.head? with
              | some row => DeleteResult.row row
              | none => DeleteResult.null)
          else
            Except.ok (DeleteResult.count result.rowCount)
      | Except.error e => Except.error ("Failed to delete entry from " ++ tableName ++ ": " ++ e)
    (r, [(query, whereParams)])

/-- Embedding of updateRecords (dbUtils.js lines 290-315): SET clause
numbered from $1, WHERE clause (present only for a non-empty condition map)
numbered after the SET parameters, parameter list update values then
condition values; wraps a query error as Failed to update records. -/
def updateRecords (tableName : String) (pool : Pool)
    (conditions updates : List (String × String)) :
    Except String (List Row) × List PoolCall :=
  let setClause := joinSep ", " (updates.enum.map (fun p => p.2.1 ++ " = $" ++ toString (p.1 + 1)))
  let whereClause :=
    if conditions.length > 0 then
      "WHERE " ++ joinSep " AND " (conditions.enum.map (fun p => p.2.1 ++ " = $" ++ toString (p.1 + 1 + updates.length)))
    else ""
  let values :=
    if conditions.length > 0 then
      updates.map Prod.snd ++ conditions.map Prod.snd
    else
      updates.map Prod.snd
  let query := "UPDATE " ++ tableName ++ " SET " ++ setClause ++ " " ++ whereClause ++ " RETURNING * "
  let r :=
    match pool query values with
    | Except.ok result => Except.ok result.rows
    | Except.error e => Except.error ("Failed to update records: " ++ e)
  (r, [(query, values)])

/-
  Spec-side clause descriptions (section 4.1 of the specification), used to
  state the refinement claims about the generated SQL text.
-/

/-- The projection fragment of getEntry as the source computes it: a single
string or a comma-joined list, with fallback to star. -/
def fieldsFragment : Option FieldsOpt → String
  | none => "*"
  | some (FieldsOpt.str s) => if s.length > 0 then s else "*"
  | some (FieldsOpt.arr l) => if l.length > 0 then joinSep ", " l else "*"

/-- The WHERE fragment the specification describes: col1 = one-dollar AND
col2 = two-dollar and so on, the empty string for the empty condition map. -/
def whereFragment (conditions : List (String × String)) : String :=
  if conditions = [] then ""
  else "WHERE " ++ joinSep " AND " (conditions.enum.map (fun p => p.2.1 ++ " = $" ++ toString (p.1 + 1)))

/-- The ORDER BY fragment the specification describes: ORDER BY col1 dir1,
col2 dir2 and so on, omitted (empty) when the sort map is empty or absent. -/
def orderByFragment : Option (List (String × String)) → String
  | none => ""
  | some s =>
      if s = [] then ""
      else "ORDER BY " ++ joinSep ", " (s.map (fun p => p.1 ++ " " ++ p.2))

/-- The LIMIT value as the code computes it (amended claim C3): maxEntries
whenever it is provided and nonzero (JS truthiness), else 1. -/
def limitTruthy : Option Int → Int
  | some n => if n ≠ 0 then n else 1
  | none => 1

/-- The LIMIT value as claim C3 words it: maxEntries when provided and
strictly positive, else 1. -/
def limitPerClaim : Option Int → Int
  | some n => if 0 < n then n else 1
  | none => 1

lemma joinSep_length_pos (sep x : String) (xs : List String) (hx : 0 < x.length) :
    0 < (joinSep sep (x :: xs)).length := by
  cases xs with
  | nil => simpa [joinSep] using hx
  | cons y ys =>
      simp only [joinSep, String.length_append]
      omega

lemma whereClause_eq_whereFragment (conds : List (String × String)) :
    (if (conds.enum.map (fun p => p.2.1 ++ " = $" ++ toString (p.1 + 1))).length > 0 then
       "WHERE " ++ joinSep " AND " (conds.enum.map (fun p => p.2.1 ++ " = $" ++ toString (p.1 + 1)))
     else "") = whereFragment conds := by
  cases conds with
  | nil => rfl
  | cons c cs => simp [whereFragment, List.enum_cons]

lemma orderBy_eq_orderByFragment (s : List (String × String)) :
    (if (joinSep ", " (s.map (fun p => p.1 ++ " " ++ p.2))).length > 0 then
       "ORDER BY " ++ joinSep ", " (s.map (fun p => p.1 ++ " " ++ p.2))
     else "") = orderByFragment (some s) := by
  cases s with
  | nil => rfl
  | cons q qs =>
      have hx : 0 < (q.1 ++ " " ++ q.2).length := by
        simp only [String.length_append]
        have hsp : (" " : String).length = 1 := rfl
        omega
      have h := joinSep_length_pos ", " (q.1 ++ " " ++ q.2)
        (qs.map (fun p => p.1 ++ " " ++ p.2)) hx
      simp only [List.map_cons] at h ⊢
      rw [if_pos h]
      simp [orderByFragment]

/-- Decomposition of the query getEntry issues: exactly one SELECT whose
fragments are the spec-side fragments above and whose parameters are the
condition values in map-iteration order. -/
lemma getEntry_query_decomp (t : String) (conds : List (String × String))
    (pool : Pool) (fo : Option FieldsOpt) (so : Option (List (String × String)))
    (mo : Option Int) :
    (getEntry t conds pool ⟨fo, so, mo⟩).2 =
      [("SELECT " ++ fieldsFragment fo ++ " FROM " ++ t ++ " " ++ whereFragment conds ++ " " ++
          orderByFragment so ++ " LIMIT " ++ toString (limitTruthy mo),
        conds.map Prod.snd)] := by
  rcases fo with _ | fs <;> rcases so with _ | s <;> rcases mo with _ | n <;>
    simp only [getEntry, fieldsFragment, limitTruthy, whereClause_eq_whereFragment,
      orderBy_eq_orderByFragment, orderByFragment]

/-- Evaluation of getEntry's result component: it is shaped from the pool's
answer to the single decomposed SELECT statement. -/
lemma getEntry_fst_eval (t : String) (conds : List (String × String))
    (pool : Pool) (fo : Option FieldsOpt) (so : Option (List (String × String)))
    (mo : Option Int) :
    (getEntry t conds pool ⟨fo, so, mo⟩).1 =
      match pool ("SELECT " ++ fieldsFragment fo ++ " FROM " ++ t ++ " " ++
          whereFragment conds ++ " " ++ orderByFragment so ++ " LIMIT " ++
          toString (limitTruthy mo)) (conds.map Prod.snd) with
      | Except.ok result =>
          if (match mo with
              | some n => decide (n ≠ 0) && decide (n > 1)
              | none => false) then
            Except.ok (if result.rows.length > 0 then GetEntryResult.many result.rows
              else GetEntryResult.null)
          else
            Except.ok (match result.rows.head? with
              | some row => GetEntryResult.one row
              | none => GetEntryResult.null)
      | Except.error e => Except.error ("Failed to retrieve entry from " ++ t ++ ": " ++ e) := by
  rcases fo with _ | fs <;> rcases so with _ | s <;> rcases mo with _ | n <;>
    simp only [getEntry, fieldsFragment, limitTruthy, whereClause_eq_whereFragment,
      orderBy_eq_orderByFragment, orderByFragment]

/-- Claim C1: for every condition map with at least one entry, deleteEntry
issues exactly one DELETE statement whose parameter list binds every
condition value positionally in map-iteration order; for the empty condition
map it fails with the safety validation error without issuing any query to
the pool, so the store is untouched. -/
theorem deleteEntry_condition_guard (t : String) (p : String × String)
    (rest : List (String × String)) (pool : Pool) (opts : DeleteOptions) :
    (deleteEntry t [] pool opts).1 =
      Except.error "At least one condition is required for safety" ∧
    (deleteEntry t [] pool opts).2 = [] ∧
    (deleteEntry t (p :: rest) pool opts).2 =
      [("DELETE FROM " ++ t ++ " WHERE " ++
          joinSep " AND " ((p :: rest).enum.map (fun q => q.2.1 ++ " = $" ++ toString (q.1 + 1))) ++
          " " ++ (if opts.returning then "RETURNING *" else ""),
        (p :: rest).map Prod.snd)] := by
  refine ⟨rfl, rfl, ?_⟩
  simp [deleteEntry]

/-- Claim C2: when the issued query succeeds, getEntry returns the first
matching row (or null when no row matched) whenever maxEntries is absent or
at most 1, returns the full row array (or null when no row matched) whenever
maxEntries exceeds 1, and never returns an empty array. -/
theorem getEntry_result_shape (t : String) (conds : List (String × String))
    (pool : Pool) (opts : GetEntryOptions) (res : QueryResult)
    (h : pool ("SELECT " ++ fieldsFragment opts.fields ++ " FROM " ++ t ++ " " ++
        whereFragment conds ++ " " ++ orderByFragment opts.sort ++ " LIMIT " ++
        toString (limitTruthy opts.maxEntries)) (conds.map Prod.snd) = Except.ok res) :
    ((opts.maxEntries = none ∨ ∃ n, opts.maxEntries = some n ∧ n ≤ 1) →
      (getEntry t conds pool opts).1 =
        Except.ok (match res.rows.head? with
          | some row => GetEntryResult.one row
          | none => GetEntryResult.null)) ∧
    (∀ n, opts.maxEntries = some n → 1 < n →
      (getEntry t conds pool opts).1 =
        Except.ok (if res.rows = [] then GetEntryResult.null
          else GetEntryResult.many res.rows)) ∧
    (getEntry t conds pool opts).1 ≠ Except.ok (GetEntryResult.many []) := by
  rcases opts with ⟨fo, so, mo⟩
  rw [getEntry_fst_eval, h]
  rcases mo with _ | n
  · refine ⟨fun _ => rfl, fun n hn => absurd hn (by simp), ?_⟩
    rcases hr : res.rows with _ | ⟨r, rs⟩ <;> simp [hr]
  · by_cases hn : 1 < n
    · have hne : n ≠ 0 := by omega
      refine ⟨?_, ?_, ?_⟩
      · rintro (habs | ⟨m, hm, hle⟩)
        · exact absurd habs (by simp)
        · injection hm with hm
          omega
      · rintro m hm hlt
        injection hm with hm
        subst hm
        rcases hr : res.rows with _ | ⟨r, rs⟩ <;> simp [hne, hn, hr]
      · rcases hr : res.rows with _ | ⟨r, rs⟩ <;> simp [hne, hn, hr]
    · refine ⟨fun _ => ?_, ?_, ?_⟩
      · simp [hn]
      · rintro m hm hlt
        injection hm with hm
        omega
      · rcases hr : res.rows with _ | ⟨r, rs⟩ <;> simp [hn, hr]

theorem getEntry_result_shape_witness :
    (getEntry "users" [("id", "1")]
        (fun _ _ => Except.ok ⟨[[("id", "1"), ("name", "Alice")]], 1⟩)
        ⟨none, none, none⟩).1 =
      Except.ok (GetEntryResult.one [("id", "1"), ("name", "Alice")]) :=
  (getEntry_result_shape "users" [("id", "1")]
      (fun _ _ => Except.ok ⟨[[("id", "1"), ("name", "Alice")]], 1⟩)
      ⟨none, none, none⟩ ⟨[[("id", "1"), ("name", "Alice")]], 1⟩ rfl).1 (Or.inl rfl)

/-- Claim C3 counterexample: with maxEntries = -1 (provided and non-positive)
the claim requires LIMIT 1, but the embedded statement carries LIMIT -1. -/
theorem getEntry_limit_claim_cex :
    (getEntry "users" [] (fun _ _ => Except.ok ⟨[], 0⟩)
        ⟨none, none, some (-1)⟩).2.map Prod.fst =
      ["SELECT * FROM users   LIMIT -1"] ∧
    limitPerClaim (some (-1)) = 1 ∧
    ("SELECT * FROM users   LIMIT -1" : String) ≠
      ("SELECT * FROM users   LIMIT 1" : String) := by
  refine ⟨rfl, by decide, by decide⟩

/-- Claim C3 (amended): the LIMIT value embedded in the SELECT statement is
options.maxEntries whenever it is provided and nonzero (JS truthiness, so
negative values pass through as given), and 1 when it is absent or zero. -/
theorem getEntry_limit_amended (t : String) (conds : List (String × String))
    (pool : Pool) (opts : GetEntryOptions) :
    ∃ pre, (getEntry t conds pool opts).2.map Prod.fst =
      [pre ++ " LIMIT " ++ toString (limitTruthy opts.maxEntries)] := by
  rcases opts with ⟨fo, so, mo⟩
  exact ⟨"SELECT " ++ fieldsFragment fo ++ " FROM " ++ t ++ " " ++
      whereFragment conds ++ " " ++ orderByFragment so,
    by rw [getEntry_query_decomp]; rfl⟩

/-- Claim C4: updateRecords issues UPDATE table SET col1 = one-dollar and so
on, with WHERE placeholders numbered after the SET placeholders, parameters
being the update values followed by the condition values, and the WHERE
clause omitted entirely when the condition map is empty (the statement then
constrains no row, i.e. the whole table is updated). -/
theorem updateRecords_query_shape (t : String) (pool : Pool)
    (conds updates : List (String × String)) :
    (updateRecords t pool conds updates).2 =
      [("UPDATE " ++ t ++ " SET " ++
          joinSep ", " (updates.enum.map (fun p => p.2.1 ++ " = $" ++ toString (p.1 + 1))) ++
          " " ++
          (if conds = [] then ""
           else "WHERE " ++ joinSep " AND "
             (conds.enum.map (fun p => p.2.1 ++ " = $" ++ toString (p.1 + 1 + updates.length)))) ++
          " RETURNING * ",
        updates.map Prod.snd ++ conds.map Prod.snd)] := by
  cases conds with
  | nil => simp [updateRecords]
  | cons c cs => simp [updateRecords]

/-- Claim C5: on a catalog-query failure checkDatabaseExists swallows the
error and answers false while checkTableExists re-throws it raw; on success
both answer true exactly when at least one catalog row matched. -/
theorem existence_check_error_policy (dbName tName schema e : String)
    (res : QueryResult) :
    (checkDatabaseExists dbName (fun _ _ => Except.error e)).1 = false ∧
    (checkDatabaseExists dbName (fun _ _ => Except.ok res)).1 =
      decide (res.rowCount > 0) ∧
    (checkTableExists tName (fun _ _ => Except.error e) schema).1 =
      Except.error e ∧
    (checkTableExists tName (fun _ _ => Except.ok res) schema).1 =
      Except.ok (decide (res.rowCount > 0)) :=
  ⟨rfl, rfl, rfl, rfl⟩

/-- Claim C6: addRow issues INSERT INTO table (columns) VALUES (values)
RETURNING * with the column list from the data map keys in iteration order,
every value embedded as a single-quoted literal in the SQL text, no bound
parameters, and returns the first returned row. -/
theorem addRow_statement_literal (t : String) (data : List (String × String))
    (pool : Pool) (res : QueryResult) :
    (addRow t data pool).2 =
      [("INSERT INTO " ++ t ++ " (" ++ joinSep ", " (data.map Prod.fst) ++
          ") VALUES (" ++
          joinSep ", " (data.map (fun kv => singleQuote ++ kv.2 ++ singleQuote)) ++
          ") RETURNING *", [])] ∧
    (addRow t data (fun _ _ => Except.ok res)).1 = Except.ok res.rows.head? :=
  ⟨rfl, rfl⟩

/-- Claim C7: the statement getEntry issues carries the WHERE fragment
col1 = one-dollar AND col2 = two-dollar and so on with the parameter list
in map-iteration order (empty fragment for the empty condition map), and
the ORDER BY fragment ORDER BY col1 dir1, col2 dir2 and so on (omitted for
an empty or absent sort map). -/
theorem getEntry_where_orderBy_fragments (t : String)
    (conds : List (String × String)) (pool : Pool) (opts : GetEntryOptions) :
    (∃ f L, (getEntry t conds pool opts).2 =
      [("SELECT " ++ f ++ " FROM " ++ t ++ " " ++ whereFragment conds ++ " " ++
          orderByFragment opts.sort ++ " LIMIT " ++ L,
        conds.map Prod.snd)]) ∧
    whereFragment [] = "" ∧
    orderByFragment none = "" ∧
    orderByFragment (some []) = "" := by
  rcases opts with ⟨fo, so, mo⟩
  exact ⟨⟨fieldsFragment fo, toString (limitTruthy mo),
    getEntry_query_decomp t conds pool fo so mo⟩, rfl, rfl, rfl⟩

/-- Claim C8 counterexample: updateRecords wraps a query failure as Failed
to update records without naming the table, so two calls on different tables
yield the identical error message. -/
theorem updateRecords_wrap_cex :
    (updateRecords "users" (fun _ _ => Except.error "boom")
        [("id", "1")] [("name", "Bob")]).1 =
      Except.error "Failed to update records: boom" ∧
    (updateRecords "users" (fun _ _ => Except.error "boom")
        [("id", "1")] [("name", "Bob")]).1 =
      (updateRecords "orders" (fun _ _ => Except.error "boom")
        [("id", "1")] [("name", "Bob")]).1 :=
  ⟨rfl, rfl⟩

/-- Claim C8 (amended): on a query failure getEntry and deleteEntry wrap the
error in a message naming the table, updateRecords wraps it as Failed to
update records without the table name, and checkTableExists, createTable,
getAllFromTable and addRow propagate the raw underlying error. -/
theorem error_propagation_policy (t schema cols e : String)
    (conds updates data : List (String × String)) (p : String × String)
    (gopts : GetEntryOptions) (dopts : DeleteOptions) :
    (getEntry t conds (fun _ _ => Except.error e) gopts).1 =
      Except.error ("Failed to retrieve entry from " ++ t ++ ": " ++ e) ∧
    (deleteEntry t (p :: conds) (fun _ _ => Except.error e) dopts).1 =
      Except.error ("Failed to delete entry from " ++ t ++ ": " ++ e) ∧
    (updateRecords t (fun _ _ => Except.error e) conds updates).1 =
      Except.error ("Failed to update records: " ++ e) ∧
    (checkTableExists t (fun _ _ => Except.error e) schema).1 = Except.error e ∧
    (createTable t (fun _ _ => Except.error e) cols).1 = Except.error e ∧
    (getAllFromTable t (fun _ _ => Except.error e)).1 = Except.error e ∧
    (addRow t data (fun _ _ => Except.error e)).1 = Except.error e := by
  refine ⟨rfl, ?_, rfl, rfl, rfl, rfl, rfl⟩
  simp [deleteEntry]

/-- Claim C9: on success getAllFromTable returns the pool's row array
unchanged, so a table with zero rows yields the empty array, never null and
never an error, unlike getEntry which maps zero matches to null. -/
theorem getAllFromTable_identity (t : String) (res : QueryResult) :
    (getAllFromTable t (fun _ _ => Except.ok res)).1 = Except.ok res.rows ∧
    (getAllFromTable t (fun _ _ => Except.ok ⟨[], 0⟩)).1 =
      Except.ok ([] : List Row) ∧
    (getEntry t [] (fun _ _ => Except.ok ⟨[], 0⟩) ⟨none, none, none⟩).1 =
      Except.ok GetEntryResult.null :=
  ⟨rfl, rfl, rfl⟩

/-- Claim C10: when the query succeeds but matches zero rows, updateRecords
returns the empty array rather than null or an error. -/
theorem updateRecords_zero_match (t : String)
    (conds updates : List (String × String)) :
    (updateRecords t (fun _ _ => Except.ok ⟨[], 0⟩) conds updates).1 =
      Except.ok ([] : List Row) :=
  rfl
